import Mathlib

/-!
Verification development for the Ferromon dashboard (src/main.rs).

The shallow embedding below translates the disk-scan engine
(`start_disk_scan`, `scan_top_dirs`), the `percent` helper and the
`snapshot` builder into Lean.  Filesystem I/O is abstracted as data:
the walk of a child directory is the list of entries the (depth-limited,
non-link-following) iterator would yield, and `read_dir` is an optional
list of immediate entries.  Machine integers (`u64`) are modelled as
`Nat`; the single place the source relies on saturation
(`size.saturating_add`) is modelled explicitly with `satAdd64`.
Floating-point values (`f64`/`f32`) are modelled as exact rationals.
Mutations of the lock-protected shared `DiskScanState` are modelled as
atomic state transformations: each Lean-level update corresponds to one
critical section of the source.
-/

/-- Shared scan state, mirroring `struct DiskScanState` in src/main.rs
(wall-clock timestamps become `Nat`, `PathBuf` becomes `String`). -/
structure DiskScanState where
  running : Bool := false
  last_target : Option String := none
  last_started_at : Option Nat := none
  last_finished_at : Option Nat := none
  progress : String := ""
  results : List (String × Nat) := []
  error : Option String := none
deriving DecidableEq, Repr

/-- The `Default::default()` state created at application start. -/
def initState : DiskScanState := {}

/-- Embedding of the single critical section at the top of
`start_disk_scan`: check `running` and, when clear, reset the state and
mark it running.  The returned `Bool` records whether a worker thread is
spawned. -/
def start_scan_update (s : DiskScanState) (target : String) (t : Nat) :
    DiskScanState × Bool :=
  if s.running then (s, false)
  else
    ({ s with
        running := true
        error := none
        progress := ""
        results := []
        last_target := some target
        last_started_at := some t
        last_finished_at := none }, true)

/-- One entry yielded by the `WalkDir` iterator over a child directory:
an iterator error (skipped by `.flatten()`), a directory, a symbolic
link (not followed, `follow_links(false)`), or a file whose metadata
read either succeeded with a length or failed (`entry.metadata()` is
`Err`). -/
inductive WalkEntry where
  | err : WalkEntry
  | dir : WalkEntry
  | symlink : WalkEntry
  | file : Option Nat → WalkEntry
deriving DecidableEq, Repr

/-- The `follow_links(false)` configuration of the walk in
`scan_top_dirs`. -/
def scan_follow_links : Bool := false

/-- The `max_depth(12)` configuration of the walk in `scan_top_dirs`. -/
def scan_max_depth : Nat := 12

/-- Saturating `u64` addition, modelling `u64::saturating_add`. -/
def satAdd64 (a b : Nat) : Nat := min (a + b) (2 ^ 64 - 1)

/-- Size accumulation for one file entry: `if let Ok(md) =
entry.metadata() { size = size.saturating_add(md.len()); }`. -/
def walkFileSize (size : Nat) : Option Nat → Nat
  | some n => satAdd64 size n
  | none => size

/-- The inner walk loop of `scan_top_dirs` over one child's entries.
Arguments after the entry list are the accumulators `size`, `seen` and
`total_seen`; the result is their final value.  Non-file entries are
skipped; a file bumps `seen` and `total_seen` and the loop breaks once
`seen >= 50_000 || total_seen >= 300_000`. -/
def walkGo : List WalkEntry → Nat → Nat → Nat → Nat × Nat × Nat
  | [], size, seen, total => (size, seen, total)
  | .err :: rest, size, seen, total => walkGo rest size seen total
  | .dir :: rest, size, seen, total => walkGo rest size seen total
  | .symlink :: rest, size, seen, total => walkGo rest size seen total
  | .file md :: rest, size, seen, total =>
    if 50000 ≤ seen + 1 ∨ 300000 ≤ total + 1 then
      (walkFileSize size md, seen + 1, total + 1)
    else walkGo rest (walkFileSize size md) (seen + 1) (total + 1)

/-- The walk of one child starts with `size = 0` and `seen = 0` and the
current cumulative `total_seen`. -/
def walkChild (entries : List WalkEntry) (total : Nat) : Nat × Nat × Nat :=
  walkGo entries 0 0 total

/-- One immediate entry of the target directory as `read_dir` yields it:
its path, whether it is a directory, and—when it is—the walk entries
beneath it. -/
structure DirEntry where
  path : String
  isDir : Bool
  entries : List WalkEntry
deriving DecidableEq, Repr

/-- Abstract filesystem as seen by one run of `scan_top_dirs`: the
target path, whether it exists and is a directory, and the outcome of
`read_dir` (`none` models an `Err`, whose entries the source silently
ignores). -/
structure Fs where
  target : String
  targetExists : Bool
  targetIsDir : Bool
  readDir : Option (List DirEntry)
deriving DecidableEq, Repr

/-- Child enumeration of `scan_top_dirs`: nothing unless the target is a
directory and `read_dir` succeeds, then the entries that are themselves
directories, in enumeration order. -/
def scanChildren (fs : Fs) : List DirEntry :=
  if fs.targetIsDir then (fs.readDir.getD []).filter (fun e => e.isDir) else []

/-- Error message for a missing target, `format!("Target does not
exist: {}", base.display())`. -/
def targetNotFoundMsg (t : String) : String := "Target does not exist: " ++ t

/-- Error message when no child directories are found. -/
def noChildrenMsg : String := "No child directories found to scan"

/-- Fixed progress message published when the cumulative file cap is
reached. -/
def capProgressMsg : String := "Reached scan cap (kept it lightweight)."

/-- Progress string `format!("{}/{}: {}", idx + 1, children.len(),
child.display())`, with `idx` already 1-based here. -/
def progressMsg (idx count : Nat) (path : String) : String :=
  toString idx ++ "/" ++ toString count ++ ": " ++ path

/-- Rust's `results.sort_by_key(|(_, b)| Reverse(*b))` followed by
`results.truncate(25)`: a stable descending sort by byte size, then
keeping the first 25 entries. -/
def sortDescTrunc (l : List (String × Nat)) : List (String × Nat) :=
  (l.mergeSort (fun a b => decide (b.2 ≤ a.2))).take 25

/-- One lock-protected mutation performed by the scan worker while it
runs: a progress update, a publish of the results list, or the fixed
cap message. -/
inductive ScanEvent where
  | setProgress : String → ScanEvent
  | publishResults : List (String × Nat) → ScanEvent
  | capMessage : ScanEvent
deriving DecidableEq, Repr

/-- The per-child loop of `scan_top_dirs`, emitting the sequence of
shared-state mutations it performs.  Arguments: remaining children,
0-based index of the next child, total child count, the running results
list, and the cumulative `total_seen`. -/
def scanLoop : List DirEntry → Nat → Nat → List (String × Nat) → Nat → List ScanEvent
  | [], _, _, _, _ => []
  | c :: rest, idx, count, results, total =>
    if 300000 ≤ (walkChild c.entries total).2.2 then
      [ScanEvent.setProgress (progressMsg (idx + 1) count c.path),
       ScanEvent.publishResults
         (sortDescTrunc (results ++ [(c.path, (walkChild c.entries total).1)])),
       ScanEvent.capMessage]
    else
      ScanEvent.setProgress (progressMsg (idx + 1) count c.path) ::
      ScanEvent.publishResults
        (sortDescTrunc (results ++ [(c.path, (walkChild c.entries total).1)])) ::
      scanLoop rest (idx + 1) count
        (sortDescTrunc (results ++ [(c.path, (walkChild c.entries total).1)]))
        (walkChild c.entries total).2.2

/-- The body of `scan_top_dirs`: the fatal checks, then the per-child
loop.  The second component is the value the worker's `Result<(),
String>` carries back (`none` for `Ok`). -/
def scanCore (fs : Fs) : List ScanEvent × Option String :=
  if fs.targetExists = false then ([], some (targetNotFoundMsg fs.target))
  else
    if (scanChildren fs).isEmpty then ([], some noChildrenMsg)
    else (scanLoop (scanChildren fs) 0 (scanChildren fs).length [] 0, none)

/-- Application of one worker mutation to the shared state. -/
def applyEvent (s : DiskScanState) : ScanEvent → DiskScanState
  | .setProgress p => { s with progress := p }
  | .publishResults rs => { s with results := rs }
  | .capMessage => { s with progress := capProgressMsg }

/-- The sequence of shared states after each worker mutation. -/
def applyEvents (s : DiskScanState) : List ScanEvent → List DiskScanState
  | [] => []
  | e :: es => applyEvent s e :: applyEvents (applyEvent s e) es

/-- The single critical section run by the worker thread after
`scan_top_dirs` returns: clear `running`, stamp the finish time, and
record the error when the result was `Err`. -/
def workerFinish (s : DiskScanState) (t1 : Nat) (err : Option String) :
    DiskScanState :=
  match err with
  | some e =>
    { s with running := false, last_finished_at := some t1, error := some e }
  | none => { s with running := false, last_finished_at := some t1 }

/-- Every shared-state value reachable during one `start_disk_scan`
call and the worker it spawns, in order: the state after the start
reset, the state after each worker mutation, and the state after the
worker's final critical section.  When a scan is already running the
call mutates nothing and the list is empty. -/
def runScanTrace (s0 : DiskScanState) (fs : Fs) (t0 t1 : Nat) :
    List DiskScanState :=
  if s0.running then []
  else
    (start_scan_update s0 fs.target t0).1 ::
      applyEvents (start_scan_update s0 fs.target t0).1 (scanCore fs).1 ++
      [workerFinish
        ((applyEvents (start_scan_update s0 fs.target t0).1 (scanCore fs).1).getLastD
          (start_scan_update s0 fs.target t0).1)
        t1 (scanCore fs).2]

/-- The shared state once the worker has terminated. -/
def runScan (s0 : DiskScanState) (fs : Fs) (t0 t1 : Nat) : DiskScanState :=
  (runScanTrace s0 fs t0 t1).getLastD s0

/-- The invariant relating the `running` flag and the `error` field of
the shared state: while a scan is running no error is recorded. -/
def scanInv (s : DiskScanState) : Prop := s.running = true → s.error = none

instance (s : DiskScanState) : Decidable (scanInv s) := by
  unfold scanInv; infer_instance

/-- Embedding of `fn percent(used: u64, total: u64) -> f64`, with `f64`
modelled by the exact rationals. -/
def percent (used total : Nat) : ℚ :=
  if total = 0 then 0 else ((used : ℚ) / (total : ℚ)) * 100

/-- One read of the metric source, carrying exactly the values
`fn snapshot` consumes: `global_cpu_info().cpu_usage()`, `cpus().len()`,
`total_memory()` and `used_memory()`. -/
structure MetricSource where
  cpu_usage : ℚ
  cpuCount : Nat
  total_memory : Nat
  used_memory : Nat
deriving DecidableEq, Repr

/-- The scalar fields of `struct VmSnapshot` (the `disks_table` display
rows are omitted; no claim concerns them). -/
structure VmSnapshot where
  cpu_usage : ℚ
  cpu_cores : Nat
  total_memory : Nat
  used_memory : Nat
  memory_percent : ℚ
deriving DecidableEq, Repr

/-- Embedding of `fn snapshot`: each field is copied or derived exactly
as in the source; in particular `cpu_cores` is `system.cpus().len()`
verbatim, with no clamping. -/
def snapshot (ms : MetricSource) : VmSnapshot :=
  { cpu_usage := ms.cpu_usage
    cpu_cores := ms.cpuCount
    total_memory := ms.total_memory
    used_memory := ms.used_memory
    memory_percent := percent ms.used_memory ms.total_memory }

/-- Severity levels of the health classifier. -/
inductive Severity where
  | ok : Severity
  | warning : Severity
  | critical : Severity
deriving DecidableEq, Repr

/-- Numeric rank used to take the maximum severity. -/
def Severity.rank : Severity → Nat
  | .ok => 0
  | .warning => 1
  | .critical => 2

/-- Maximum of two severities. -/
def maxSev (a b : Severity) : Severity := if a.rank ≤ b.rank then b else a

/-- Modelled from the spec: the health classifier and its input are
absent from src/main.rs (the source's `VmSnapshot` has no
`normalized_load`, steal or swap fields); this record carries the
fields the spec's rule table (§4.2) reads. -/
structure HealthInput where
  normalized_load : ℚ
  available_memory_percent : ℚ
  used_swap : Nat
  cpu_steal_percent : Option ℚ
  cpu_usage : ℚ

/-- Modelled from the spec: swap-trend detection — at least 6 buffered
samples (newest first), increasing iff the newest sample exceeds the
sample 5 positions older and is positive. -/
def swapHistoryIncreasing (hist : List Nat) : Bool :=
  match hist.head?, hist.get? 5 with
  | some newest, some older => decide (older < newest ∧ 0 < newest)
  | _, _ => false

/-- Detail text of the CPU-pressure reason. -/
def cpuPressureDetail : String := ": normalized load exceeds core count"

/-- Modelled from the spec: the fixed, ordered rule table of §4.2.
Each rule is a predicate over the input and the swap history together
with the severity and reason it contributes when triggered. -/
def healthRules :
    List ((HealthInput → List Nat → Bool) × Severity × String) :=
  [(fun s _ => decide (1 < s.normalized_load), Severity.critical,
      "CPU pressure" ++ cpuPressureDetail),
   (fun s _ => decide (7 / 10 < s.normalized_load ∧ s.normalized_load ≤ 1),
      Severity.warning, "Elevated load"),
   (fun s _ => decide (s.available_memory_percent < 15), Severity.critical,
      "Low available memory"),
   (fun s _ =>
      decide (15 ≤ s.available_memory_percent ∧ s.available_memory_percent < 20),
      Severity.warning, "Available memory getting low"),
   (fun s h => decide (0 < s.used_swap) && swapHistoryIncreasing h,
      Severity.critical, "Swap usage increasing"),
   (fun s _ =>
      match s.cpu_steal_percent with
      | some st => decide (10 < st)
      | none => false,
      Severity.critical, "High CPU steal"),
   (fun s _ => decide (1 < s.normalized_load ∧ s.cpu_usage < 50),
      Severity.warning, "Load high but CPU usage low (possible I/O wait)")]

/-- The triggered issues, in rule-table order. -/
def triggeredIssues (s : HealthInput) (h : List Nat) :
    List (Severity × String) :=
  healthRules.filterMap (fun r => if r.1 s h then some r.2 else none)

/-- Result of the health classifier. -/
structure HealthSummary where
  status : Severity
  primary_reason : Option String
  secondary : List String
deriving DecidableEq, Repr

/-- Modelled from the spec: the classifier evaluates the rules in table
order, pushing each triggered issue onto an accumulator, then takes the
maximum severity, the first reason and the remaining reasons — the
operational shape an implementation would have. -/
def classify (s : HealthInput) (h : List Nat) : HealthSummary :=
  let issues := healthRules.foldl
    (fun acc r => if r.1 s h then acc ++ [r.2] else acc) []
  { status := issues.foldl (fun a i => maxSev a i.1) Severity.ok
    primary_reason := issues.head?.map (fun i => i.2)
    secondary := (issues.drop 1).map (fun i => i.2) }

/-- Worker mutations never touch the `running` flag. -/
theorem applyEvent_running (s : DiskScanState) (e : ScanEvent) :
    (applyEvent s e).running = s.running := by
  cases e <;> rfl

/-- Worker mutations never touch the `error` field. -/
theorem applyEvent_error (s : DiskScanState) (e : ScanEvent) :
    (applyEvent s e).error = s.error := by
  cases e <;> rfl

/-- Every state reached while applying worker mutations keeps the
`running` and `error` fields of the starting state. -/
theorem applyEvents_mem_fields :
    ∀ (evs : List ScanEvent) (s : DiskScanState),
      ∀ x ∈ applyEvents s evs, x.running = s.running ∧ x.error = s.error := by
  intro evs
  induction evs with
  | nil => intro s x hx; simp [applyEvents] at hx
  | cons e es ih =>
    intro s x hx
    rcases List.mem_cons.mp hx with rfl | hx
    · exact ⟨applyEvent_running s e, applyEvent_error s e⟩
    · have h := ih (applyEvent s e) x hx
      exact ⟨h.1.trans (applyEvent_running s e),
             h.2.trans (applyEvent_error s e)⟩

/-- A predicate holding on every member of a list and on the default
holds on `getLastD`. -/
theorem getLastD_pred {α : Type} (P : α → Prop) :
    ∀ (l : List α) (d : α), (∀ x ∈ l, P x) → P d → P (l.getLastD d) := by
  intro l
  induction l with
  | nil => intro d _ hd; exact hd
  | cons a t ih =>
    intro d hl _
    rw [List.getLastD_cons]
    exact ih a (fun x hx => hl x (List.mem_cons_of_mem a hx))
      (hl a (List.mem_cons_self a t))

/-- The last element of a trace of the shape `s1 :: mids ++ [fin]`. -/
theorem getLastD_cons_concat {α : Type} (a x d : α) (l : List α) :
    (((a :: l) ++ [x]).getLastD d) = x := by
  rw [List.getLastD_concat]

/-- The worker's final critical section always clears `running`. -/
theorem workerFinish_running (s : DiskScanState) (t : Nat) (e : Option String) :
    (workerFinish s t e).running = false := by
  cases e <;> rfl

/-- The worker's final critical section leaves `results` unchanged. -/
theorem workerFinish_results (s : DiskScanState) (t : Nat) (e : Option String) :
    (workerFinish s t e).results = s.results := by
  cases e <;> rfl

/-- The error recorded by the worker's final critical section. -/
theorem workerFinish_error (s : DiskScanState) (t : Nat) :
    (workerFinish s t none).error = s.error ∧
    ∀ e, (workerFinish s t (some e)).error = some e :=
  ⟨rfl, fun _ => rfl⟩

/-- When no scan is running, the final state is the worker's last
critical section applied to the last intermediate state. -/
theorem runScan_eq (s0 : DiskScanState) (fs : Fs) (t0 t1 : Nat)
    (h : s0.running = false) :
    runScan s0 fs t0 t1 =
      workerFinish
        ((applyEvents (start_scan_update s0 fs.target t0).1 (scanCore fs).1).getLastD
          (start_scan_update s0 fs.target t0).1)
        t1 (scanCore fs).2 := by
  unfold runScan runScanTrace
  rw [h]
  simp only [Bool.false_eq_true, if_false, getLastD_cons_concat]

/-- C1: while the shared state has `running == true`, `start_scan` is a
no-op: the single check-and-set critical section returns the state
unchanged and spawns no worker thread. -/
theorem start_scan_running_noop (s : DiskScanState) (target : String)
    (t : Nat) (h : s.running = true) :
    start_scan_update s target t = (s, false) := by
  simp [start_scan_update, h]

/-- Witness for C1 at a concrete running state. -/
theorem start_scan_running_noop_witness :
    start_scan_update { running := true } "x" 0 =
      ({ running := true }, false) :=
  start_scan_running_noop { running := true } "x" 0 rfl

/-- C7: `percent` returns 0 for a zero total, `used/total*100`
otherwise, and is never negative (and, being an exact rational, never a
NaN). -/
theorem percent_spec (used total : Nat) :
    percent used 0 = 0 ∧
    (total ≠ 0 → percent used total = (used : ℚ) / (total : ℚ) * 100) ∧
    0 ≤ percent used total := by
  refine ⟨by simp [percent], fun h => by simp [percent, h], ?_⟩
  unfold percent
  split
  · exact le_refl 0
  · positivity

/-- Witness for C7 at `used = 1`, `total = 2`. -/
theorem percent_spec_witness :
    percent 1 0 = 0 ∧ percent 1 2 = (1 : ℚ) / 2 * 100 ∧ 0 ≤ percent 1 2 :=
  ⟨(percent_spec 1 0).1, (percent_spec 1 2).2.1 (by decide),
   (percent_spec 1 2).2.2⟩

/-- C8 counterexample: `fn snapshot` does not clamp the core count — a
metric source reporting zero cores produces a snapshot whose
`cpu_cores` is 0, not at least 1. -/
theorem snapshot_zero_cores_counterexample :
    ¬ (1 ≤ (snapshot
      { cpu_usage := 0, cpuCount := 0, total_memory := 0,
        used_memory := 0 }).cpu_cores) := by
  decide

/-- C8 amended: `snapshot` copies the metric source's core count
verbatim into `cpu_cores`, with no clamping. -/
theorem snapshot_cpu_cores_verbatim (ms : MetricSource) :
    (snapshot ms).cpu_cores = ms.cpuCount := rfl

/-- C3: every worker termination clears `running` (so a later
`start_scan` is not suppressed); a missing target or an absence of
child directories records its descriptive message in `error`, while a
successful scan ends with `error == none`. -/
theorem scan_final_state (s0 : DiskScanState) (fs : Fs) (t0 t1 : Nat)
    (h : s0.running = false) :
    (runScan s0 fs t0 t1).running = false ∧
    (fs.targetExists = false →
      (runScan s0 fs t0 t1).error = some (targetNotFoundMsg fs.target)) ∧
    (fs.targetExists = true → scanChildren fs = [] →
      (runScan s0 fs t0 t1).error = some noChildrenMsg) ∧
    (fs.targetExists = true → scanChildren fs ≠ [] →
      (runScan s0 fs t0 t1).error = none) ∧
    (start_scan_update (runScan s0 fs t0 t1) fs.target t1).2 = true := by
  have hrs := runScan_eq s0 fs t0 t1 h
  have hs1 : (start_scan_update s0 fs.target t0).1.error = none := by
    simp [start_scan_update, h]
  refine ⟨?_, ?_, ?_, ?_, ?_⟩
  · rw [hrs, workerFinish_running]
  · intro hex
    have hc : scanCore fs = ([], some (targetNotFoundMsg fs.target)) := by
      simp [scanCore, hex]
    rw [hrs, hc]
    exact (workerFinish_error _ t1).2 _
  · intro hex hch
    have hc : scanCore fs = ([], some noChildrenMsg) := by
      simp [scanCore, hex, hch]
    rw [hrs, hc]
    exact (workerFinish_error _ t1).2 _
  · intro hex hch
    have hc2 : (scanCore fs).2 = none := by
      simp [scanCore, hex, List.isEmpty_iff, hch]
    rw [hrs, hc2, (workerFinish_error _ t1).1]
    refine getLastD_pred (fun x : DiskScanState => x.error = none) _ _ ?_ hs1
    intro x hx
    exact ((applyEvents_mem_fields _ _ x hx).2).trans hs1
  · rw [hrs]
    simp [start_scan_update, workerFinish_running]

/-- Witness for C3: a successful scan of a target with one child ends
not running and without error. -/
theorem scan_final_state_witness :
    (runScan initState
      { target := "t", targetExists := true, targetIsDir := true,
        readDir := some [{ path := "a", isDir := true, entries := [] }] }
      0 1).running = false ∧
    (runScan initState
      { target := "t", targetExists := true, targetIsDir := true,
        readDir := some [{ path := "a", isDir := true, entries := [] }] }
      0 1).error = none :=
  ⟨(scan_final_state initState
      { target := "t", targetExists := true, targetIsDir := true,
        readDir := some [{ path := "a", isDir := true, entries := [] }] }
      0 1 rfl).1,
   (scan_final_state initState
      { target := "t", targetExists := true, targetIsDir := true,
        readDir := some [{ path := "a", isDir := true, entries := [] }] }
      0 1 rfl).2.2.2.1 rfl (by decide)⟩

/-- C10: a target that exists but is not a directory yields zero child
directories, hence the scan ends with the no-children error (which is
not the target-not-found error) and `running == false`. -/
theorem scan_nondir_target (s0 : DiskScanState) (fs : Fs) (t0 t1 : Nat)
    (h : s0.running = false) (hex : fs.targetExists = true)
    (hdir : fs.targetIsDir = false) :
    scanChildren fs = [] ∧
    (runScan s0 fs t0 t1).error = some noChildrenMsg ∧
    noChildrenMsg ≠ targetNotFoundMsg fs.target ∧
    (runScan s0 fs t0 t1).running = false := by
  have hch : scanChildren fs = [] := by simp [scanChildren, hdir]
  refine ⟨hch, ?_, ?_, ?_⟩
  · have hc : scanCore fs = ([], some noChildrenMsg) := by
      simp [scanCore, hex, hch]
    rw [runScan_eq s0 fs t0 t1 h, hc]
    exact (workerFinish_error _ t1).2 _
  · intro heq
    have h2 := congrArg String.data heq
    simp [noChildrenMsg, targetNotFoundMsg, String.data_append] at h2
  · rw [runScan_eq s0 fs t0 t1 h, workerFinish_running]

/-- Witness for C10: scanning a regular file as target. -/
theorem scan_nondir_target_witness :
    (runScan initState
      { target := "t", targetExists := true, targetIsDir := false,
        readDir := none } 0 1).error = some noChildrenMsg ∧
    noChildrenMsg ≠ targetNotFoundMsg ("t") :=
  ⟨(scan_nondir_target initState
      { target := "t", targetExists := true, targetIsDir := false,
        readDir := none } 0 1 rfl rfl rfl).2.1,
   (scan_nondir_target initState
      { target := "t", targetExists := true, targetIsDir := false,
        readDir := none } 0 1 rfl rfl rfl).2.2.1⟩

/-- The truncated results list never exceeds 25 entries. -/
theorem sortDescTrunc_length (l : List (String × Nat)) :
    (sortDescTrunc l).length ≤ 25 := by
  simp [sortDescTrunc, List.length_take]

/-- The truncated results list is sorted descending by byte size. -/
theorem sortDescTrunc_sorted (l : List (String × Nat)) :
    List.Pairwise (fun a b : String × Nat => b.2 ≤ a.2) (sortDescTrunc l) := by
  have h := @List.sorted_mergeSort (String × Nat)
    (fun a b => decide (b.2 ≤ a.2))
    (by intro a b c hab hbc; simp at *; omega)
    (by intro a b; simp [Bool.or_eq_true]; omega) l
  have h2 := List.Pairwise.sublist (List.take_sublist 25 _) h
  exact h2.imp (by intro a b hab; exact of_decide_eq_true hab)

/-- Every results list the per-child loop publishes is a sorted-and-
truncated list. -/
theorem scanLoop_publish_shape :
    ∀ (children : List DirEntry) (idx count total : Nat)
      (results rs : List (String × Nat)),
      ScanEvent.publishResults rs ∈ scanLoop children idx count results total →
      ∃ l, rs = sortDescTrunc l := by
  intro children
  induction children with
  | nil => intro idx count total results rs h; simp [scanLoop] at h
  | cons c rest ih =>
    intro idx count total results rs h
    simp only [scanLoop] at h
    by_cases hcap : 300000 ≤ (walkChild c.entries total).2.2
    · rw [if_pos hcap] at h
      simp at h
      exact ⟨_, h⟩
    · rw [if_neg hcap] at h
      rcases List.mem_cons.mp h with h1 | h
      · exact ScanEvent.noConfusion h1
      rcases List.mem_cons.mp h with h2 | h3
      · injection h2 with h2
        exact ⟨_, h2⟩
      · exact ih _ _ _ _ _ h3

/-- A property of the results list holding initially and on every
published list holds on every state the worker mutations produce. -/
theorem applyEvents_results_pred (P : List (String × Nat) → Prop) :
    ∀ (evs : List ScanEvent) (s : DiskScanState),
      P s.results → (∀ rs, ScanEvent.publishResults rs ∈ evs → P rs) →
      ∀ x ∈ applyEvents s evs, P x.results := by
  intro evs
  induction evs with
  | nil => intro s hP hpub x hx; simp [applyEvents] at hx
  | cons e es ih =>
    intro s hP hpub x hx
    have hP' : P (applyEvent s e).results := by
      cases e with
      | setProgress p => exact hP
      | publishResults rs => exact hpub rs (List.mem_cons_self _ _)
      | capMessage => exact hP
    rcases List.mem_cons.mp hx with rfl | hx
    · exact hP'
    · exact ih (applyEvent s e) hP'
        (fun rs hrs => hpub rs (List.mem_cons_of_mem _ hrs)) x hx

/-- Every published results list produced by `scanCore` is bounded by
25 entries and sorted descending. -/
theorem scanCore_publish_bounded (fs : Fs) :
    ∀ rs, ScanEvent.publishResults rs ∈ (scanCore fs).1 →
      rs.length ≤ 25 ∧
      List.Pairwise (fun a b : String × Nat => b.2 ≤ a.2) rs := by
  intro rs hrs
  unfold scanCore at hrs
  by_cases h1 : fs.targetExists = false
  · rw [if_pos h1] at hrs; simp at hrs
  · rw [if_neg h1] at hrs
    by_cases h2 : (scanChildren fs).isEmpty = true
    · rw [if_pos h2] at hrs; simp at hrs
    · rw [if_neg h2] at hrs
      obtain ⟨l, rfl⟩ := scanLoop_publish_shape _ _ _ _ _ _ hrs
      exact ⟨sortDescTrunc_length l, sortDescTrunc_sorted l⟩

/-- C2: every shared state reachable during a scan — the reset at scan
start, each per-child publish, and the final state — carries a results
list of at most 25 entries, sorted descending by byte size. -/
theorem published_results_bounded (s0 : DiskScanState) (fs : Fs)
    (t0 t1 : Nat) :
    ∀ s ∈ runScanTrace s0 fs t0 t1,
      s.results.length ≤ 25 ∧
      List.Pairwise (fun a b : String × Nat => b.2 ≤ a.2) s.results := by
  intro s hs
  unfold runScanTrace at hs
  by_cases hr : s0.running = true
  · rw [if_pos hr] at hs; simp at hs
  · rw [if_neg hr] at hs
    have hs1res : (start_scan_update s0 fs.target t0).1.results = [] := by
      simp [start_scan_update, hr]
    have hP1 : ((start_scan_update s0 fs.target t0).1.results).length ≤ 25 ∧
        List.Pairwise (fun a b : String × Nat => b.2 ≤ a.2)
          (start_scan_update s0 fs.target t0).1.results := by
      rw [hs1res]; exact ⟨by simp, by simp⟩
    rcases List.mem_append.mp hs with hs' | hs'
    · rcases List.mem_cons.mp hs' with rfl | hsm
      · exact hP1
      · exact applyEvents_results_pred
          (fun l => l.length ≤ 25 ∧
            List.Pairwise (fun a b : String × Nat => b.2 ≤ a.2) l)
          _ _ hP1 (scanCore_publish_bounded fs) s hsm
    · have hfin := List.mem_singleton.mp hs'
      subst hfin
      rw [workerFinish_results]
      exact getLastD_pred
        (fun x : DiskScanState => x.results.length ≤ 25 ∧
          List.Pairwise (fun a b : String × Nat => b.2 ≤ a.2) x.results)
        _ _
        (applyEvents_results_pred
          (fun l => l.length ≤ 25 ∧
            List.Pairwise (fun a b : String × Nat => b.2 ≤ a.2) l)
          _ _ hP1 (scanCore_publish_bounded fs))
        hP1

/-- Witness for C2 at the reset state of a concrete scan. -/
theorem published_results_bounded_witness :
    ((start_scan_update initState ("t") 0).1.results).length ≤ 25 ∧
    List.Pairwise (fun a b : String × Nat => b.2 ≤ a.2)
      (start_scan_update initState ("t") 0).1.results :=
  published_results_bounded initState
    { target := "t", targetExists := true, targetIsDir := true,
      readDir := some
        [{ path := "a", isDir := true,
           entries := [WalkEntry.file (some 3)] }] }
    0 1 (start_scan_update initState ("t") 0).1 (by decide)

/-- C5: the invariant `running == true → error == none` holds of the
initial state and of every state produced by `start_scan` and by the
scan worker's mutations. -/
theorem running_implies_no_error (s0 : DiskScanState) (fs : Fs)
    (t0 t1 : Nat) (h : scanInv s0) :
    scanInv initState ∧
    scanInv (start_scan_update s0 fs.target t0).1 ∧
    ∀ s ∈ runScanTrace s0 fs t0 t1, scanInv s := by
  refine ⟨by decide, ?_, ?_⟩
  · by_cases hr : s0.running = true
    · simpa [start_scan_update, hr] using h
    · intro _
      simp [start_scan_update, hr]
  · intro s hs
    unfold runScanTrace at hs
    by_cases hr : s0.running = true
    · rw [if_pos hr] at hs; simp at hs
    · rw [if_neg hr] at hs
      have hs1err : (start_scan_update s0 fs.target t0).1.error = none := by
        simp [start_scan_update, hr]
      rcases List.mem_append.mp hs with hs' | hs'
      · rcases List.mem_cons.mp hs' with rfl | hsm
        · intro _; exact hs1err
        · intro _
          exact ((applyEvents_mem_fields _ _ s hsm).2).trans hs1err
      · have hfin := List.mem_singleton.mp hs'
        subst hfin
        intro hrun
        rw [workerFinish_running] at hrun
        exact Bool.noConfusion hrun

/-- Witness for C5 at the initial state and a concrete start. -/
theorem running_implies_no_error_witness :
    scanInv initState ∧ scanInv (start_scan_update initState ("t") 0).1 :=
  ⟨(running_implies_no_error initState
      { target := "t", targetExists := false, targetIsDir := false,
        readDir := none } 0 1 (by decide)).1,
   (running_implies_no_error initState
      { target := "t", targetExists := false, targetIsDir := false,
        readDir := none } 0 1 (by decide)).2.1⟩

/-- C4: once the cumulative file count reaches 300,000 (while walking a
child), that child's result is still published, the fixed cap message
is published, and no further child is processed; the scan result stays
`Ok` whenever children exist.  The per-child cap of 50,000 only breaks
the walk of that child — the result of the walk is independent of the
remaining entries — and the loop continues with the next child while
the cumulative cap is not reached. -/
theorem scan_cap_behaviour (c : DirEntry) (rest : List DirEntry)
    (idx count total : Nat) (results : List (String × Nat)) :
    (300000 ≤ (walkChild c.entries total).2.2 →
      scanLoop (c :: rest) idx count results total =
        [ScanEvent.setProgress (progressMsg (idx + 1) count c.path),
         ScanEvent.publishResults
           (sortDescTrunc (results ++ [(c.path, (walkChild c.entries total).1)])),
         ScanEvent.capMessage]) ∧
    (¬ 300000 ≤ (walkChild c.entries total).2.2 →
      scanLoop (c :: rest) idx count results total =
        ScanEvent.setProgress (progressMsg (idx + 1) count c.path) ::
        ScanEvent.publishResults
          (sortDescTrunc (results ++ [(c.path, (walkChild c.entries total).1)])) ::
        scanLoop rest (idx + 1) count
          (sortDescTrunc (results ++ [(c.path, (walkChild c.entries total).1)]))
          (walkChild c.entries total).2.2) ∧
    (∀ (md : Option Nat) (tail : List WalkEntry) (size seen tot : Nat),
      50000 ≤ seen + 1 →
      walkGo (WalkEntry.file md :: tail) size seen tot =
        (walkFileSize size md, seen + 1, tot + 1)) ∧
    (∀ fs : Fs, fs.targetExists = true → scanChildren fs ≠ [] →
      (scanCore fs).2 = none) := by
  refine ⟨?_, ?_, ?_, ?_⟩
  · intro h
    simp only [scanLoop]
    rw [if_pos h]
  · intro h
    simp only [scanLoop]
    rw [if_neg h]
  · intro md tail size seen tot h
    simp only [walkGo]
    rw [if_pos (Or.inl h)]
  · intro fs hex hch
    simp [scanCore, hex, List.isEmpty_iff, hch]

/-- Witness for C4: a child whose single file pushes the cumulative
count to exactly 300,000 ends the scan with the cap message; a file
seen as the 50,000th of a child stops that child's walk. -/
theorem scan_cap_behaviour_witness :
    scanLoop [{ path := "a", isDir := true,
                entries := [WalkEntry.file (some 7)] }] 0 1 [] 299999 =
      [ScanEvent.setProgress (progressMsg 1 1 "a"),
       ScanEvent.publishResults
         (sortDescTrunc
           ([] ++ [("a", (walkChild [WalkEntry.file (some 7)] 299999).1)])),
       ScanEvent.capMessage] ∧
    walkGo [WalkEntry.file (some 1), WalkEntry.file (some 2)] 0 49999 0 =
      (walkFileSize 0 (some 1), 50000, 1) ∧
    (scanCore
      { target := "t", targetExists := true, targetIsDir := true,
        readDir := some [{ path := "a", isDir := true, entries := [] }] }).2 =
      none :=
  ⟨(scan_cap_behaviour
      { path := "a", isDir := true, entries := [WalkEntry.file (some 7)] }
      [] 0 1 299999 []).1 (by decide),
   (scan_cap_behaviour
      { path := "a", isDir := true, entries := [WalkEntry.file (some 7)] }
      [] 0 1 299999 []).2.2.1 (some 1) [WalkEntry.file (some 2)] 0 49999 0
      (by decide),
   (scan_cap_behaviour
      { path := "a", isDir := true, entries := [WalkEntry.file (some 7)] }
      [] 0 1 299999 []).2.2.2
      { target := "t", targetExists := true, targetIsDir := true,
        readDir := some [{ path := "a", isDir := true, entries := [] }] }
      rfl (by decide)⟩

/-- C6: iterator errors and symbolic links contribute nothing to the
walk and are skipped; a file whose metadata read fails is skipped for
sizing (while still counted); such failures never reach the `error`
field (the result is `Ok` whenever children exist); the child's
best-effort size is published regardless; and the walk is configured
not to follow symbolic links. -/
theorem walk_skips_io_errors :
    (∀ (rest : List WalkEntry) (size seen total : Nat),
      walkGo (WalkEntry.err :: rest) size seen total =
        walkGo rest size seen total) ∧
    (∀ (rest : List WalkEntry) (size seen total : Nat),
      walkGo (WalkEntry.symlink :: rest) size seen total =
        walkGo rest size seen total) ∧
    (∀ (rest : List WalkEntry) (size seen total : Nat),
      ¬ (50000 ≤ seen + 1 ∨ 300000 ≤ total + 1) →
      walkGo (WalkEntry.file none :: rest) size seen total =
        walkGo rest size (seen + 1) (total + 1)) ∧
    (∀ fs : Fs, fs.targetExists = true → scanChildren fs ≠ [] →
      (scanCore fs).2 = none) ∧
    (∀ (c : DirEntry) (rest : List DirEntry) (idx count total : Nat)
       (results : List (String × Nat)), ∃ evs,
      scanLoop (c :: rest) idx count results total =
        ScanEvent.setProgress (progressMsg (idx + 1) count c.path) ::
        ScanEvent.publishResults
          (sortDescTrunc
            (results ++ [(c.path, (walkChild c.entries total).1)])) :: evs) ∧
    scan_follow_links = false := by
  refine ⟨?_, ?_, ?_, ?_, ?_, rfl⟩
  · intro rest size seen total; rfl
  · intro rest size seen total; rfl
  · intro rest size seen total h
    simp only [walkGo]
    rw [if_neg h]
    rfl
  · intro fs hex hch
    simp [scanCore, hex, List.isEmpty_iff, hch]
  · intro c rest idx count total results
    by_cases hcap : 300000 ≤ (walkChild c.entries total).2.2
    · exact ⟨[ScanEvent.capMessage], by simp only [scanLoop]; rw [if_pos hcap]⟩
    · exact ⟨scanLoop rest (idx + 1) count
        (sortDescTrunc (results ++ [(c.path, (walkChild c.entries total).1)]))
        (walkChild c.entries total).2.2,
        by simp only [scanLoop]; rw [if_neg hcap]⟩

/-- Witness for C6 at concrete walks. -/
theorem walk_skips_io_errors_witness :
    walkGo [WalkEntry.err, WalkEntry.file (some 5)] 0 0 0 =
      walkGo [WalkEntry.file (some 5)] 0 0 0 ∧
    walkGo [WalkEntry.file none, WalkEntry.dir] 3 0 0 =
      walkGo [WalkEntry.dir] 3 1 1 ∧
    scan_follow_links = false :=
  ⟨walk_skips_io_errors.1 [WalkEntry.file (some 5)] 0 0 0,
   walk_skips_io_errors.2.2.1 [WalkEntry.dir] 3 0 0 (by decide),
   walk_skips_io_errors.2.2.2.2.2⟩

/-- The maximum with `ok` on the left is the identity. -/
theorem maxSev_ok_left (a : Severity) : maxSev Severity.ok a = a := by
  cases a <;> rfl

/-- Associativity of the severity maximum. -/
theorem maxSev_assoc (a b c : Severity) :
    maxSev (maxSev a b) c = maxSev a (maxSev b c) := by
  cases a <;> cases b <;> cases c <;> rfl

/-- A left fold of the severity maximum equals the fold-right maximum
applied on the right of the accumulator. -/
theorem foldl_maxSev_eq (l : List (Severity × String)) :
    ∀ a, l.foldl (fun x i => maxSev x i.1) a =
      maxSev a (l.foldr (fun i x => maxSev i.1 x) Severity.ok) := by
  induction l with
  | nil => intro a; cases a <;> rfl
  | cons i t ih =>
    intro a
    simp only [List.foldl_cons, List.foldr_cons]
    rw [ih, maxSev_assoc]

/-- Accumulating the triggered rules by pushing onto a list equals
appending the filter-map of the rule table. -/
theorem foldl_push_filterMap (s : HealthInput) (h : List Nat) :
    ∀ (rules : List ((HealthInput → List Nat → Bool) × Severity × String))
      (acc : List (Severity × String)),
      rules.foldl (fun a r => if r.1 s h then a ++ [r.2] else a) acc =
        acc ++ rules.filterMap (fun r => if r.1 s h then some r.2 else none) := by
  intro rules
  induction rules with
  | nil => intro acc; simp
  | cons r t ih =>
    intro acc
    simp only [List.foldl_cons, List.filterMap_cons]
    by_cases hr : r.1 s h = true
    · simp only [if_pos hr, ih, List.append_assoc, List.singleton_append]
    · simp only [if_neg hr, ih]

/-- The classifier's status is the fold-right maximum over the
triggered issues. -/
theorem classify_status_eq (s : HealthInput) (h : List Nat) :
    (classify s h).status =
      (triggeredIssues s h).foldr (fun i x => maxSev i.1 x) Severity.ok := by
  simp only [classify]
  rw [foldl_push_filterMap]
  simp only [List.nil_append, triggeredIssues]
  rw [foldl_maxSev_eq, maxSev_ok_left]

/-- The classifier's primary reason is the reason of the first
triggered issue. -/
theorem classify_primary_eq (s : HealthInput) (h : List Nat) :
    (classify s h).primary_reason =
      ((triggeredIssues s h).head?).map (fun i => i.2) := by
  simp only [classify]
  rw [foldl_push_filterMap]
  simp only [List.nil_append, triggeredIssues]

/-- C9: the classifier is a pure function whose status is the maximum
severity across the triggered rules (Ok when none trigger) and whose
primary reason is the reason of the first rule, in table order, that
triggered; in particular a normalized load of 1.5 with 50% available
memory, no swap and absent steal is Critical with the CPU-pressure
reason. -/
theorem classify_spec (s : HealthInput) (h : List Nat) :
    (classify s h).status =
      (triggeredIssues s h).foldr (fun i x => maxSev i.1 x) Severity.ok ∧
    (classify s h).primary_reason =
      ((triggeredIssues s h).head?).map (fun i => i.2) ∧
    (triggeredIssues s h = [] → (classify s h).status = Severity.ok) ∧
    (∀ (cu : ℚ) (hist : List Nat),
      (classify
        { normalized_load := 3 / 2, available_memory_percent := 50,
          used_swap := 0, cpu_steal_percent := none,
          cpu_usage := cu } hist).status = Severity.critical ∧
      (classify
        { normalized_load := 3 / 2, available_memory_percent := 50,
          used_swap := 0, cpu_steal_percent := none,
          cpu_usage := cu } hist).primary_reason =
        some ("CPU pressure" ++ cpuPressureDetail)) := by
  refine ⟨classify_status_eq s h, classify_primary_eq s h, ?_, ?_⟩
  · intro hempty
    rw [classify_status_eq s h, hempty]
    rfl
  · intro cu hist
    by_cases hcu : cu < 50
    · have ht : triggeredIssues
          { normalized_load := 3 / 2, available_memory_percent := 50,
            used_swap := 0, cpu_steal_percent := none,
            cpu_usage := cu } hist =
          [(Severity.critical, "CPU pressure" ++ cpuPressureDetail),
           (Severity.warning,
             "Load high but CPU usage low (possible I/O wait)")] := by
        norm_num [triggeredIssues, healthRules, List.filterMap_cons, hcu]
      exact ⟨by rw [classify_status_eq, ht]; rfl, by rw [classify_primary_eq, ht]; rfl⟩
    · have ht : triggeredIssues
          { normalized_load := 3 / 2, available_memory_percent := 50,
            used_swap := 0, cpu_steal_percent := none,
            cpu_usage := cu } hist =
          [(Severity.critical, "CPU pressure" ++ cpuPressureDetail)] := by
        norm_num [triggeredIssues, healthRules, List.filterMap_cons, hcu]
      exact ⟨by rw [classify_status_eq, ht]; rfl, by rw [classify_primary_eq, ht]; rfl⟩

/-- Witness for C9: a nominal input is Ok; the spec's CPU-pressure
input is Critical with the CPU-pressure primary reason. -/
theorem classify_spec_witness :
    (classify
      { normalized_load := 1 / 10, available_memory_percent := 80,
        used_swap := 0, cpu_steal_percent := some 0, cpu_usage := 5 }
      []).status = Severity.ok ∧
    (classify
      { normalized_load := 3 / 2, available_memory_percent := 50,
        used_swap := 0, cpu_steal_percent := none, cpu_usage := 30 }
      []).status = Severity.critical ∧
    (classify
      { normalized_load := 3 / 2, available_memory_percent := 50,
        used_swap := 0, cpu_steal_percent := none, cpu_usage := 30 }
      []).primary_reason = some ("CPU pressure" ++ cpuPressureDetail) :=
  ⟨(classify_spec
      { normalized_load := 1 / 10, available_memory_percent := 80,
        used_swap := 0, cpu_steal_percent := some 0, cpu_usage := 5 }
      []).2.2.1 (by norm_num [triggeredIssues, healthRules, List.filterMap_cons,
        swapHistoryIncreasing]),
   ((classify_spec
      { normalized_load := 1 / 10, available_memory_percent := 80,
        used_swap := 0, cpu_steal_percent := some 0, cpu_usage := 5 }
      []).2.2.2 30 []).1,
   ((classify_spec
      { normalized_load := 1 / 10, available_memory_percent := 80,
        used_swap := 0, cpu_steal_percent := some 0, cpu_usage := 5 }
      []).2.2.2 30 []).2⟩
